import Mathlib

/-!
Verification of `avatar2/protocols/armv7m_interrupt.py` against its design
specification.  The Python module is shallowly embedded below: the ctypes
record layouts become byte-list codecs, the listener thread's loop becomes a
function over the list of receive outcomes, and the lifecycle methods become
state-passing functions whose external effects are recorded in an action
trace.
-/

namespace Avatar2

/-- The `V7MInterruptExitReq` ctypes structure: fields in declared order,
`id` a `c_uint64`, `num_irq` and `type` each a `c_uint32`. -/
structure V7MInterruptExitReq where
  id : Nat
  num_irq : Nat
  type : Nat
deriving Repr, DecidableEq

/-- Size in bytes of `V7MInterruptExitReq` (8 + 4 + 4, no padding needed since
every field sits at a multiple of its alignment). -/
def exitReqSize : Nat := 16

/-- The in-memory image of a `w`-byte unsigned integer field on a
little-endian host, least significant byte first. -/
def toBytesLE : Nat → Nat → List Nat
  | 0, _ => []
  | w + 1, v => v % 256 :: toBytesLE w (v / 256)

/-- Reads a little-endian byte list back as a natural number. -/
def fromBytesLE : List Nat → Nat
  | [] => 0
  | b :: bs => b + 256 * fromBytesLE bs

/-- The byte image of a `V7MInterruptExitReq` value: the three fields laid out
in declaration order, each in its fixed width. -/
def encodeExitReq (r : V7MInterruptExitReq) : List Nat :=
  toBytesLE 8 r.id ++ toBytesLE 4 r.num_irq ++ toBytesLE 4 r.type

/-- Decode failure: `MalformedMessage` models the `ValueError` that ctypes
`from_buffer_copy` raises when the source buffer is smaller than the
structure. -/
inductive DecodeError where
  | MalformedMessage
deriving Repr, DecidableEq

/-- `V7MInterruptExitReq.from_buffer_copy`: fails when the buffer is shorter
than the structure size, otherwise reads the three fields from their fixed
offsets (0, 8, 12).  A buffer longer than the structure is accepted and its
extra bytes are ignored, as ctypes does. -/
def from_buffer_copy (buf : List Nat) : Except DecodeError V7MInterruptExitReq :=
  if buf.length < exitReqSize then .error .MalformedMessage
  else .ok { id := fromBytesLE (buf.take 8),
             num_irq := fromBytesLE ((buf.drop 8).take 4),
             type := fromBytesLE ((buf.drop 12).take 4) }

/-- The `RemoteInterruptExitMessage(origin, id, type, num_irq)` value that the
listener constructs and puts on the avatar queue; the origin target is kept
abstract as a string tag. -/
structure RemoteInterruptExitMessage where
  origin : String
  id : Nat
  type : Nat
  num_irq : Nat
deriving Repr, DecidableEq

/-- Outcome of one `self._rx_queue.receive(0.5)` call in the listener loop:
either an exception (a timeout, or any other receive failure — both are
swallowed by the bare `except: continue`), or a `(payload, priority)` message
of which `run` uses the payload `request[0]`. -/
inductive RecvResult where
  | exc
  | msg (payload : List Nat)
deriving Repr, DecidableEq

/-- Observable state of the listener thread after `run` has consumed a prefix
of receive outcomes: the messages it pushed to the avatar queue, whether the
`_closed` event has been set, and whether the thread died with an uncaught
exception (in which case `_closed` is never set). -/
structure RunState where
  queue : List RemoteInterruptExitMessage
  closedSet : Bool
  aborted : Bool
deriving Repr, DecidableEq

/-- The while-loop of `ARMV7MInterruptProtocol.run`, driven by the finite list
of receive outcomes that occur while `_close` stays clear, starting from
avatar-queue contents `q`.  An `exc` outcome is swallowed by the bare
`except: continue`; on a message, `V7MInterruptExitReq.from_buffer_copy` runs
outside any handler, so a decode failure propagates out of `run` and kills the
thread without setting `_closed`, discarding the remaining outcomes.  When the
outcome list is exhausted the loop is still polling (`closedSet` and `aborted`
both false). -/
def runIterations (origin : String) : List RecvResult → List RemoteInterruptExitMessage → RunState
  | [], q => ⟨q, false, false⟩
  | .exc :: rest, q => runIterations origin rest q
  | .msg p :: rest, q =>
    match from_buffer_copy p with
    | .error _ => ⟨q, false, true⟩
    | .ok r => runIterations origin rest (q ++ [⟨origin, r.id, r.type, r.num_irq⟩])

/-- The forwarded message built from one decoded request, as in the body of
`run`. -/
def forwardedMessage (origin : String) (r : V7MInterruptExitReq) :
    RemoteInterruptExitMessage :=
  ⟨origin, r.id, r.type, r.num_irq⟩

/-- The inbound payloads of the three-request scenario: ids 1, 2, 3 with
irq numbers 5, 6, 7 (return type 16 throughout). -/
def scenarioPayloads : List (List Nat) :=
  [encodeExitReq ⟨1, 5, 16⟩, encodeExitReq ⟨2, 6, 16⟩, encodeExitReq ⟨3, 7, 16⟩]

/-- Poll timeout of the listener loop in milliseconds: `receive(0.5)`. -/
def pollTimeoutMs : Nat := 500

/-- Timing model of `run` for the case in which no messages ever arrive:
every receive call raises a timeout after `d i` milliseconds (positive and at
most the 0.5 s bound), message processing takes no modelled time, and the
loop-top check at absolute time `t` observes the `_close` event iff `stop`
has set it by then (`closeTime ≤ t`).  Returns the absolute time at which the
loop breaks and sets `_closed`; `none` means the fuel ran out first. -/
def closedSetTime (closeTime : Nat) (d : Nat → Nat) : Nat → Nat → Nat → Option Nat
  | 0, _, _ => none
  | fuel + 1, i, t =>
    if closeTime ≤ t then some t
    else closedSetTime closeTime d fuel (i + 1) (t + d i)

/-- One posix message queue handle as held in `_rx_queue` / `_tx_queue`:
whether the descriptor is open and whether the queue name is still linked in
the system. -/
structure MQueueHandle where
  qname : String
  isOpen : Bool
  linked : Bool
deriving Repr, DecidableEq

/-- Instance state of `ARMV7MInterruptProtocol`: the two queue name strings
fixed at construction, the two optional queue handles, the `_close` and
`_closed` events, whether the listener thread has been started and is still
alive, and a count of the warnings logged during teardown. -/
structure ProtocolState where
  rx_queue_name : String
  tx_queue_name : String
  rx_queue : Option MQueueHandle
  tx_queue : Option MQueueHandle
  closeSet : Bool
  closedSet : Bool
  listenerRunning : Bool
  warnings : Nat
deriving Repr, DecidableEq

/-- The state right after `__init__`: both queue fields are None, both events
are clear, and the listener thread has not been started. -/
def initialState (rx_queue_name tx_queue_name : String) : ProtocolState :=
  ⟨rx_queue_name, tx_queue_name, none, none, false, false, false, 0⟩

/-- `ARMV7MInterruptProtocol.stop`: set `_close`, then wait on `_closed`
without a timeout.  The wait returns (result `some`) exactly when `_closed`
is already set, or the listener thread is running — it observes `_close` at
its next loop-top check, breaks, and sets `_closed` (see `runIterations` and
`closedSetTime`); when the thread was never started or already died with an
uncaught exception, nothing ever sets `_closed` and the wait blocks forever
(result `none`). -/
def stop (s : ProtocolState) : Option ProtocolState :=
  if s.closedSet || s.listenerRunning then
    some { s with closeSet := true, closedSet := true, listenerRunning := false }
  else none

/-- One per-queue teardown block of `shutdown`: when the field is set, unlink
the queue, close it and clear the field; when the queue name is no longer
linked, `unlink` raises `ExistentialError`, which is caught — a warning is
logged and the rest of the block (the close and the clearing of the field) is
skipped.  Returns the new field value and the number of warnings logged. -/
def teardownQueue : Option MQueueHandle → Option MQueueHandle × Nat
  | none => (none, 0)
  | some q => if q.linked then (none, 0) else (some q, 1)

/-- `ARMV7MInterruptProtocol.shutdown`: `stop`, then the rx teardown block,
then the tx teardown block.  Blocks forever (`none`) exactly when `stop`
does. -/
def shutdown (s : ProtocolState) : Option ProtocolState :=
  match stop s with
  | none => none
  | some s1 =>
    let rx := teardownQueue s1.rx_queue
    let tx := teardownQueue s1.tx_queue
    some { s1 with rx_queue := rx.1, tx_queue := tx.1,
                   warnings := s1.warnings + rx.2 + tx.2 }

/-- A concrete instance state in which `enable_interrupts` has completed
successfully: both queues open and linked, listener thread running. -/
def sampleRunningState : ProtocolState :=
  { initialState "/rx_q" "/tx_q" with
    listenerRunning := true,
    rx_queue := some ⟨"/rx_q", true, true⟩,
    tx_queue := some ⟨"/tx_q", true, true⟩ }

/-- A parameter value in a remote command mapping: queue names are strings,
irq and cpu numbers are integers. -/
inductive PValue where
  | str (v : String)
  | num (v : Nat)
deriving Repr, DecidableEq

/-- Externally observable actions of the lifecycle methods, in program
order. -/
inductive Action where
  | execute_command (cmd : String) (params : List (String × PValue))
  | open_queue (qname : String) (write : Bool)
  | close_queue (qname : String)
  | start_thread
deriving Repr, DecidableEq

/-- Selects the remote-command actions of a trace. -/
def isExecuteCommand : Action → Bool
  | .execute_command _ _ => true
  | _ => false

/-- Selects the actions that touch a named channel. -/
def isChannelAction : Action → Bool
  | .open_queue _ _ => true
  | .close_queue _ => true
  | _ => false

/-- The error raised past the caller of `enable_interrupts` when the origin
is not a QemuTarget (the spec's `UnsupportedTarget`). -/
inductive EnableError where
  | UnsupportedTarget
deriving Repr, DecidableEq

/-- `ARMV7MInterruptProtocol.enable_interrupts`.  `isQemuTarget` is the value
of `isinstance(self._origin, QemuTarget)`; `rmem_rx_qname` and
`rmem_tx_qname` are the sibling remote-memory protocol's queue names;
`rxOpenOk` and `txOpenOk` tell whether each `MessageQueue(...)` constructor
succeeds.  Returns the raised error or the boolean result, the trace of
external actions in order, and the updated instance state.  Mirrors the
source: the enable command swaps the rx/tx names into the emulator's
perspective; a failed rx open returns False with `_rx_queue` still None; a
failed tx open closes the rx queue (the field keeps the closed handle) and
returns False; on success the daemon thread is started. -/
def enable_interrupts (s : ProtocolState) (isQemuTarget : Bool)
    (rmem_rx_qname rmem_tx_qname : String) (rxOpenOk txOpenOk : Bool) :
    Except EnableError Bool × List Action × ProtocolState :=
  if isQemuTarget then
    let cmd := Action.execute_command "avatar-armv7m-enable-irq"
      [("irq_rx_queue_name", .str s.tx_queue_name),
       ("irq_tx_queue_name", .str s.rx_queue_name),
       ("rmem_rx_queue_name", .str rmem_tx_qname),
       ("rmem_tx_queue_name", .str rmem_rx_qname)]
    if rxOpenOk then
      let s1 := { s with rx_queue := some ⟨s.rx_queue_name, true, true⟩ }
      if txOpenOk then
        (.ok true,
         [cmd, .open_queue s.rx_queue_name false, .open_queue s.tx_queue_name true,
          .start_thread],
         { s1 with tx_queue := some ⟨s.tx_queue_name, true, true⟩,
                   listenerRunning := true })
      else
        (.ok false,
         [cmd, .open_queue s.rx_queue_name false, .open_queue s.tx_queue_name true,
          .close_queue s.rx_queue_name],
         { s1 with rx_queue := some ⟨s.rx_queue_name, false, true⟩ })
    else
      (.ok false, [cmd, .open_queue s.rx_queue_name false], s)
  else
    (.error .UnsupportedTarget, [], s)

/-- `ARMV7MInterruptProtocol.inject_interrupt`: for a QemuTarget origin it
issues the single inject command; for any other origin the whole body is
skipped.  Both paths return None and raise nothing, modelled by the
always-`ok` first component.  `cpu_number` defaults to 0. -/
def inject_interrupt (isQemuTarget : Bool) (interrupt_number : Nat)
    (cpu_number : Nat := 0) : Except EnableError Unit × List Action :=
  if isQemuTarget then
    (.ok (), [.execute_command "avatar-armv7m-inject-irq"
      [("num_irq", .num interrupt_number), ("num_cpu", .num cpu_number)]])
  else
    (.ok (), [])

theorem length_toBytesLE (w v : Nat) : (toBytesLE w v).length = w := by
  induction w generalizing v with
  | zero => rfl
  | succ w ih => simp [toBytesLE, ih]

theorem fromBytesLE_toBytesLE (w v : Nat) (h : v < 256 ^ w) :
    fromBytesLE (toBytesLE w v) = v := by
  induction w generalizing v with
  | zero =>
    interval_cases v
    rfl
  | succ w ih =>
    have hdiv : v / 256 < 256 ^ w := by
      rw [Nat.div_lt_iff_lt_mul (by norm_num : 0 < 256)]
      calc v < 256 ^ (w + 1) := h
        _ = 256 ^ w * 256 := by rw [pow_succ]
    simp only [toBytesLE, fromBytesLE, ih (v / 256) hdiv]
    exact Nat.mod_add_div v 256

theorem take_append_of_length {α : Type} (l₁ l₂ : List α) (n : Nat)
    (h : l₁.length = n) : (l₁ ++ l₂).take n = l₁ := by
  subst h
  exact List.take_left l₁ l₂

theorem drop_append_of_length {α : Type} (l₁ l₂ : List α) (n : Nat)
    (h : l₁.length = n) : (l₁ ++ l₂).drop n = l₂ := by
  subst h
  exact List.drop_left l₁ l₂

/-- C4: for every triple with `id < 2^64` and the two 32-bit fields below
`2^32`, decoding the fixed-layout binary encoding of the `ExitRequest` record
reproduces the original triple exactly (decode is a left inverse of encode;
encode is a total function). -/
theorem decode_encode_exitReq (r : V7MInterruptExitReq)
    (hid : r.id < 2 ^ 64) (hirq : r.num_irq < 2 ^ 32) (hty : r.type < 2 ^ 32) :
    from_buffer_copy (encodeExitReq r) = .ok r := by
  have h8 : (toBytesLE 8 r.id).length = 8 := length_toBytesLE 8 r.id
  have h4 : (toBytesLE 4 r.num_irq).length = 4 := length_toBytesLE 4 r.num_irq
  have hlen : (encodeExitReq r).length = 16 := by
    simp [encodeExitReq, length_toBytesLE]
  have htake8 : (encodeExitReq r).take 8 = toBytesLE 8 r.id :=
    take_append_of_length _ _ 8 h8
  have hdrop8 : (encodeExitReq r).drop 8 = toBytesLE 4 r.num_irq ++ toBytesLE 4 r.type :=
    drop_append_of_length _ _ 8 h8
  have htake4 : ((encodeExitReq r).drop 8).take 4 = toBytesLE 4 r.num_irq := by
    rw [hdrop8]
    exact take_append_of_length _ _ 4 h4
  have hdrop12 : (encodeExitReq r).drop 12 = toBytesLE 4 r.type := by
    have : (encodeExitReq r).drop 12 = ((encodeExitReq r).drop 8).drop 4 := by
      rw [List.drop_drop]
    rw [this, hdrop8]
    exact drop_append_of_length _ _ 4 h4
  have hid' : r.id < 256 ^ 8 := by
    calc r.id < 2 ^ 64 := hid
      _ = 256 ^ 8 := by norm_num
  have hirq' : r.num_irq < 256 ^ 4 := by
    calc r.num_irq < 2 ^ 32 := hirq
      _ = 256 ^ 4 := by norm_num
  have hty' : r.type < 256 ^ 4 := by
    calc r.type < 2 ^ 32 := hty
      _ = 256 ^ 4 := by norm_num
  have htakeAll : (toBytesLE 4 r.type).take 4 = toBytesLE 4 r.type :=
    List.take_of_length_le (le_of_eq (length_toBytesLE 4 r.type))
  simp only [from_buffer_copy, hlen, exitReqSize]
  rw [if_neg (by norm_num)]
  rw [htake8, htake4, hdrop12, htakeAll]
  rw [fromBytesLE_toBytesLE 8 r.id hid', fromBytesLE_toBytesLE 4 r.num_irq hirq',
      fromBytesLE_toBytesLE 4 r.type hty']

/-- Witness for C4 at the concrete triple (3, 5, 4294967289). -/
theorem decode_encode_exitReq_witness :
    (3 : Nat) < 2 ^ 64 ∧ (5 : Nat) < 2 ^ 32 ∧ (4294967289 : Nat) < 2 ^ 32 ∧
    from_buffer_copy (encodeExitReq ⟨3, 5, 4294967289⟩) = .ok ⟨3, 5, 4294967289⟩ :=
  ⟨by norm_num, by norm_num, by norm_num,
    decode_encode_exitReq ⟨3, 5, 4294967289⟩ (by norm_num) (by norm_num) (by norm_num)⟩

/-- C1 counterexample: a successful receive of a 4-byte payload (shorter than
the 16-byte record) makes `run` abort the listener: the decode error is not
handled, `_closed` is never set, and the following well-formed request is
never processed — refuting that the loop continues polling and that the
listener task is never aborted by a decode failure. -/
theorem decode_failure_claim_counterexample :
    runIterations "qemu"
      [RecvResult.msg [0, 0, 0, 0], RecvResult.msg (encodeExitReq ⟨1, 5, 16⟩)] [] =
      ⟨[], false, true⟩ := by
  rfl

/-- C1 amended: whenever a receive succeeds but the payload is shorter than
the fixed record size, the decode failure propagates out of `run`: the
message is dropped, but the loop does not continue polling — the listener
thread aborts without setting the `_closed` event, and the remaining inbound
traffic is never processed. -/
theorem short_payload_aborts_listener (origin : String) (p : List Nat)
    (rest : List RecvResult) (q : List RemoteInterruptExitMessage)
    (h : p.length < exitReqSize) :
    runIterations origin (.msg p :: rest) q = ⟨q, false, true⟩ := by
  have hfp : from_buffer_copy p = .error .MalformedMessage := by
    unfold from_buffer_copy
    rw [if_pos h]
  simp [runIterations, hfp]

/-- Witness for the amended C1 at a concrete 3-byte payload. -/
theorem short_payload_aborts_listener_witness :
    ([0, 0, 0] : List Nat).length < exitReqSize ∧
    runIterations "qemu" [RecvResult.msg [0, 0, 0]] [] = ⟨[], false, true⟩ :=
  ⟨by decide, short_payload_aborts_listener "qemu" [0, 0, 0] [] [] (by decide)⟩

/-- C7: when every inbound payload decodes successfully, the listener pushes
exactly one message per request onto the avatar queue, carrying the decoded
id, return type and irq number, in receive order, and neither aborts nor
stops. -/
theorem run_forwards_decoded_requests (origin : String) (payloads : List (List Nat))
    (q : List RemoteInterruptExitMessage)
    (h : ∀ p ∈ payloads, (from_buffer_copy p).isOk = true) :
    runIterations origin (payloads.map RecvResult.msg) q =
      ⟨q ++ payloads.filterMap fun p =>
        (from_buffer_copy p).toOption.map (forwardedMessage origin), false, false⟩ ∧
    (runIterations origin (payloads.map RecvResult.msg) q).queue.length =
      q.length + payloads.length := by
  induction payloads generalizing q with
  | nil => simp [runIterations]
  | cons p ps ih =>
    have hp := h p (List.mem_cons_self p ps)
    cases hfp : from_buffer_copy p with
    | error e =>
      rw [hfp] at hp
      simp [Except.isOk, Except.toBool] at hp
    | ok r =>
      have hps : ∀ x ∈ ps, (from_buffer_copy x).isOk = true :=
        fun x hx => h x (List.mem_cons_of_mem p hx)
      have step : runIterations origin ((p :: ps).map RecvResult.msg) q =
          runIterations origin (ps.map RecvResult.msg) (q ++ [forwardedMessage origin r]) := by
        simp [runIterations, hfp, forwardedMessage]
      obtain ⟨ih1, ih2⟩ := ih (q ++ [forwardedMessage origin r]) hps
      constructor
      · rw [step, ih1]
        simp [List.filterMap_cons, hfp, Except.toOption, List.append_assoc]
      · rw [step, ih2]
        simp [List.length_append]
        omega

/-- Witness for C7: the three-request scenario (ids 1, 2, 3 with irqs
5, 6, 7) forwarded starting from an empty queue. -/
theorem run_forwards_decoded_requests_witness :
    (∀ p ∈ scenarioPayloads, (from_buffer_copy p).isOk = true) ∧
    (runIterations "qemu" (scenarioPayloads.map RecvResult.msg) [] =
      ⟨([] : List RemoteInterruptExitMessage) ++ scenarioPayloads.filterMap fun p =>
        (from_buffer_copy p).toOption.map (forwardedMessage "qemu"), false, false⟩ ∧
     (runIterations "qemu" (scenarioPayloads.map RecvResult.msg) []).queue.length =
      ([] : List RemoteInterruptExitMessage).length + scenarioPayloads.length) :=
  ⟨by decide, run_forwards_decoded_requests "qemu" scenarioPayloads [] (by decide)⟩

/-- C2 counterexample: on a freshly constructed instance on which `enable`
was never successfully completed (the listener thread never started),
`shutdown` does not return: `stop` blocks forever waiting on the `_closed`
event, which nothing will ever set — refuting that `shutdown` is safe to call
in every state. -/
theorem shutdown_before_enable_blocks :
    shutdown (initialState "/rx_q" "/tx_q") = none := by
  rfl

/-- C2 amended: on an instance whose listener is running (the state reached
by a successful `enable`), `shutdown` returns without error, clears both
channel fields, logs no warning, and a second `shutdown` in succession is a
no-op returning the same state with no error; but when the listener never
started, `shutdown` blocks forever in `stop` instead of returning. -/
theorem shutdown_twice_after_enable (s : ProtocolState)
    (hrun : s.listenerRunning = true)
    (hrx : s.rx_queue = some ⟨s.rx_queue_name, true, true⟩)
    (htx : s.tx_queue = some ⟨s.tx_queue_name, true, true⟩) :
    ∃ s1, shutdown s = some s1 ∧ s1.rx_queue = none ∧ s1.tx_queue = none ∧
      s1.warnings = s.warnings ∧ shutdown s1 = some s1 := by
  obtain ⟨rn, tn, rx, tx, c1, c2, lr, w⟩ := s
  dsimp only at hrun hrx htx
  subst hrun hrx htx
  refine ⟨⟨rn, tn, none, none, true, true, false, w⟩, ?_, rfl, rfl, rfl, rfl⟩
  cases c2 <;> rfl

/-- Witness for the amended C2 at the concrete post-enable state. -/
theorem shutdown_twice_after_enable_witness :
    sampleRunningState.listenerRunning = true ∧
    sampleRunningState.rx_queue = some ⟨sampleRunningState.rx_queue_name, true, true⟩ ∧
    sampleRunningState.tx_queue = some ⟨sampleRunningState.tx_queue_name, true, true⟩ ∧
    (∃ s1, shutdown sampleRunningState = some s1 ∧ s1.rx_queue = none ∧
      s1.tx_queue = none ∧ s1.warnings = sampleRunningState.warnings ∧
      shutdown s1 = some s1) :=
  ⟨rfl, rfl, rfl, shutdown_twice_after_enable sampleRunningState rfl rfl rfl⟩

theorem closedSetTime_reaches (closeTime : Nat) (d : Nat → Nat)
    (hpos : ∀ i, 1 ≤ d i) (hbound : ∀ i, d i ≤ pollTimeoutMs) :
    ∀ fuel i t, closeTime - t < fuel → t ≤ closeTime + pollTimeoutMs →
    ∃ r, closedSetTime closeTime d fuel i t = some r ∧ closeTime ≤ r ∧
      r ≤ closeTime + pollTimeoutMs := by
  intro fuel
  induction fuel with
  | zero => intro i t hf ht; omega
  | succ fuel ih =>
    intro i t hf ht
    by_cases hc : closeTime ≤ t
    · exact ⟨t, by simp [closedSetTime, hc], hc, ht⟩
    · have h1 : closedSetTime closeTime d (fuel + 1) i t =
          closedSetTime closeTime d fuel (i + 1) (t + d i) := by
        simp [closedSetTime, hc]
      have ht' : t + d i ≤ closeTime + pollTimeoutMs := by
        have := hbound i
        omega
      have hf' : closeTime - (t + d i) < fuel := by
        have := hpos i
        omega
      obtain ⟨r, hr, h2, h3⟩ := ih (i + 1) (t + d i) hf' ht'
      exact ⟨r, by rw [h1, hr], h2, h3⟩

/-- C3: with the listener running and no messages ever arriving (every
receive call is a timeout taking at most the 0.5 s poll bound), the `_closed`
event that `stop` waits on is set within one polling interval of the moment
`stop` sets `_close` — in particular within twice the configured timeout —
so `shutdown` returns within that bound. -/
theorem shutdown_latency_bounded (closeTime : Nat) (d : Nat → Nat)
    (hpos : ∀ i, 1 ≤ d i) (hbound : ∀ i, d i ≤ pollTimeoutMs) :
    ∃ t, closedSetTime closeTime d (closeTime + 1) 0 0 = some t ∧
      closeTime ≤ t ∧ t - closeTime ≤ 2 * pollTimeoutMs := by
  obtain ⟨r, hr, h1, h2⟩ :=
    closedSetTime_reaches closeTime d hpos hbound (closeTime + 1) 0 0
      (by omega) (by omega)
  exact ⟨r, hr, h1, by omega⟩

/-- Witness for C3: `stop` called at 750 ms into a run whose receive calls
each take the full 500 ms timeout. -/
theorem shutdown_latency_bounded_witness :
    (∀ i : Nat, 1 ≤ (fun _ : Nat => 500) i) ∧
    (∀ i : Nat, (fun _ : Nat => 500) i ≤ pollTimeoutMs) ∧
    (∃ t, closedSetTime 750 (fun _ : Nat => 500) (750 + 1) 0 0 = some t ∧
      750 ≤ t ∧ t - 750 ≤ 2 * pollTimeoutMs) := by
  have h1 : ∀ i : Nat, 1 ≤ (fun _ : Nat => 500) i := by
    intro i
    show (1 : Nat) ≤ 500
    decide
  have h2 : ∀ i : Nat, (fun _ : Nat => 500) i ≤ pollTimeoutMs := by
    intro i
    show (500 : Nat) ≤ pollTimeoutMs
    decide
  exact ⟨h1, h2, shutdown_latency_bounded 750 (fun _ : Nat => 500) h1 h2⟩

/-- C5: on an origin that is not a QemuTarget, `enable_interrupts` raises the
hard `UnsupportedTarget` error having issued no remote command, performed no
channel open, and left the instance state exactly as it was. -/
theorem enable_unsupported_target (s : ProtocolState) (rr rt : String)
    (orx otx : Bool) :
    enable_interrupts s false rr rt orx otx =
      (.error .UnsupportedTarget, [], s) := by
  rfl

/-- C6: when the rx channel opens but the tx channel open fails,
`enable_interrupts` closes the already-opened rx channel (the trace ends with
the close, and the retained rx handle is no longer open) and reports the
failure through the boolean result False rather than by raising. -/
theorem enable_tx_failure_closes_rx (s : ProtocolState) (rr rt : String) :
    enable_interrupts s true rr rt true false =
      (.ok false,
       [Action.execute_command "avatar-armv7m-enable-irq"
          [("irq_rx_queue_name", .str s.tx_queue_name),
           ("irq_tx_queue_name", .str s.rx_queue_name),
           ("rmem_rx_queue_name", .str rt),
           ("rmem_tx_queue_name", .str rr)],
        .open_queue s.rx_queue_name false, .open_queue s.tx_queue_name true,
        .close_queue s.rx_queue_name],
       { s with rx_queue := some ⟨s.rx_queue_name, false, true⟩ }) := by
  rfl

/-- C9: whatever the channel-open outcomes, `enable_interrupts` on a
QemuTarget issues exactly one remote command, `avatar-armv7m-enable-irq`,
whose mapping swaps the directions into the emulator's perspective: the
emulator's rx name is this side's tx name and vice versa, and likewise for
the sibling remote-memory pair. -/
theorem enable_issues_one_swapped_command (s : ProtocolState) (rr rt : String)
    (orx otx : Bool) :
    ((enable_interrupts s true rr rt orx otx).2.1).filter isExecuteCommand =
      [Action.execute_command "avatar-armv7m-enable-irq"
        [("irq_rx_queue_name", .str s.tx_queue_name),
         ("irq_tx_queue_name", .str s.rx_queue_name),
         ("rmem_rx_queue_name", .str rt),
         ("rmem_tx_queue_name", .str rr)]] := by
  cases orx <;> cases otx <;>
    simp [enable_interrupts, isExecuteCommand, List.filter_cons]

/-- C8: on a QemuTarget origin, `inject_interrupt` issues exactly one remote
command `avatar-armv7m-inject-irq` with the mapping num_irq ↦ irq number and
num_cpu ↦ cpu number, the cpu number defaulting to 0, raises nothing, and
produces no action on either named channel. -/
theorem inject_interrupt_qemu (irq cpu : Nat) :
    inject_interrupt true irq cpu =
      (.ok (), [.execute_command "avatar-armv7m-inject-irq"
        [("num_irq", .num irq), ("num_cpu", .num cpu)]]) ∧
    inject_interrupt true irq =
      (.ok (), [.execute_command "avatar-armv7m-inject-irq"
        [("num_irq", .num irq), ("num_cpu", .num 0)]]) ∧
    ((inject_interrupt true irq cpu).2).filter isChannelAction = [] := by
  refine ⟨rfl, rfl, ?_⟩
  simp [inject_interrupt, isChannelAction, List.filter_cons]

/-- C10: on an origin that is not a QemuTarget, `inject_interrupt` silently
does nothing — no remote command, no error raised, the None return of the
Python function — in contrast to `enable_interrupts`, which raises the hard
`UnsupportedTarget` error for the same condition. -/
theorem inject_interrupt_non_qemu (irq cpu : Nat) (s : ProtocolState)
    (rr rt : String) (orx otx : Bool) :
    inject_interrupt false irq cpu = (.ok (), []) ∧
    (enable_interrupts s false rr rt orx otx).1 = .error .UnsupportedTarget :=
  ⟨rfl, rfl⟩

end Avatar2
